import Mathlib

/-!
Verification of the Medit native backend (Tauri commands, menu construction
and menu-event dispatch) against its specification.

The Rust sources are shallowly embedded:
* the file system is an explicit state (`FSState`): an association list from
  paths to on-disk data, where data is either bytes that decode as text or
  invalid bytes (`FileData`);
* each command handler becomes a pure function over that state, returning
  the same result records (`FileResult`, `DialogResult`, `NewFileResult`)
  the Rust code serializes;
* the native dialog facility delivers exactly one callback value per call
  (`Option` of a chosen path); the `mpsc` one-shot rendezvous in the source
  is modelled as direct delivery of that single value;
* the menu tree is a list of submenus of typed items, mirroring
  `menu.rs::create_menu` with its two platform-conditional branches
  (`macos : Bool`); `update_menu_labels` becomes a structural map;
* `handle_menu_event` returns the list of emit calls it performs, each
  carrying the unit payload the source passes.
-/

namespace Medit

/-- `FileResult { success, content, error }` from `commands.rs`. -/
structure FileResult where
  success : Bool
  content : Option String
  error : Option String
deriving DecidableEq

/-- `DialogResult { path, canceled }` from `commands.rs`. -/
structure DialogResult where
  path : Option String
  canceled : Bool
deriving DecidableEq

/-- `NewFileResult { success }` from `commands.rs`. -/
structure NewFileResult where
  success : Bool
deriving DecidableEq

/-- Contents of a file on disk: either bytes that decode as text
(`text s`), or bytes that are not valid UTF-8 (`invalid`). -/
inductive FileData
  | text (s : String)
  | invalid
deriving DecidableEq

/-- The file-system state: which paths hold which data. -/
structure FSState where
  files : List (String × FileData)
deriving DecidableEq

/-- `std::fs::read_to_string`: `Ok` with the decoded text for an existing
text file, `Err` with the OS error message for a missing file, `Err` with
the encoding error message for a file that is not valid UTF-8. -/
def readToStringOS (fs : FSState) (path : String) : Except String String :=
  match fs.files.lookup path with
  | some (FileData.text s) => Except.ok s
  | some FileData.invalid => Except.error "stream did not contain valid UTF-8"
  | none => Except.error "No such file or directory (os error 2)"

/-- `std::fs::write`: create or truncate the file at `path` with `content`. -/
def writeOS (fs : FSState) (path content : String) : Except String FSState :=
  Except.ok { files := (path, FileData.text content) :: fs.files.filter (fun p => p.1 != path) }

/-- `commands.rs::read_file`: match on the OS read and wrap the outcome in a
`FileResult`; the state is untouched. -/
def read_file (fs : FSState) (path : String) : FileResult × FSState :=
  match readToStringOS fs path with
  | Except.ok content => ({ success := true, content := some content, error := none }, fs)
  | Except.error e => ({ success := false, content := none, error := some e }, fs)

/-- `commands.rs::write_file`: match on the OS write and wrap the outcome in
a `FileResult`. -/
def write_file (fs : FSState) (path content : String) : FileResult × FSState :=
  match writeOS fs path content with
  | Except.ok fs2 => ({ success := true, content := none, error := none }, fs2)
  | Except.error e => ({ success := false, content := none, error := some e }, fs)

/-- `commands.rs::new_file`: no file-system operation, constant success. -/
def new_file (fs : FSState) : NewFileResult × FSState :=
  ({ success := true }, fs)

/-- `commands.rs::open_file_dialog`. `choice` is the single value the native
dialog delivers to the callback: `some path` when the user selected a file,
`none` when the user canceled. -/
def open_file_dialog (choice : Option String) : Except String DialogResult :=
  match choice with
  | some path => Except.ok { path := some path, canceled := false }
  | none => Except.ok { path := none, canceled := true }

/-- `commands.rs::save_file_dialog`; `default_name` only pre-fills the
dialog's file-name field and does not affect the returned record. -/
def save_file_dialog (default_name : Option String) (choice : Option String) :
    Except String DialogResult :=
  match choice with
  | some path => Except.ok { path := some path, canceled := false }
  | none => Except.ok { path := none, canceled := true }

/-- The one observable effect of `commands.rs::exit_app`: the process
termination request `app.exit(code)`. -/
structure ExitCall where
  code : Int
deriving DecidableEq

/-- `commands.rs::exit_app`: request termination with code 0, return `Ok(())`. -/
def exit_app : ExitCall × Except String Unit :=
  ({ code := 0 }, Except.ok ())

/-! ## Menu model (`menu.rs`) -/

/-- One entry of a submenu, as appended by `menu.rs`: an identified menu
item, an identified check item, a separator, or a predefined host-toolkit
item (undo, redo, cut, copy, paste, select-all, hide, ...) named by `tag`.
The source creates no check items, but `update_menu_labels` handles them. -/
inductive ChildItem
  | menuItem (id text : String)
  | check (id text : String)
  | separator
  | predefined (tag : String)
deriving DecidableEq

/-- A submenu with its identifier, its displayed text and its children. -/
structure SubmenuM where
  id : String
  text : String
  children : List ChildItem
deriving DecidableEq

/-- `menu.rs::create_file_menu`; the explicit Exit entry exists only off
macOS (`#[cfg(not(target_os = "macos"))]`). -/
def create_file_menu (macos : Bool) : SubmenuM :=
  { id := "file", text := "文件",
    children :=
      [ChildItem.menuItem "file:new" "新建",
       ChildItem.menuItem "file:open" "打开...",
       ChildItem.separator,
       ChildItem.menuItem "file:save" "保存",
       ChildItem.menuItem "file:save-as" "另存为...",
       ChildItem.separator] ++
      (if macos then [] else [ChildItem.menuItem "file:exit" "退出"]) }

/-- `menu.rs::create_edit_menu`. -/
def create_edit_menu : SubmenuM :=
  { id := "edit", text := "编辑",
    children :=
      [ChildItem.predefined "undo",
       ChildItem.predefined "redo",
       ChildItem.separator,
       ChildItem.predefined "cut",
       ChildItem.predefined "copy",
       ChildItem.predefined "paste",
       ChildItem.predefined "select_all",
       ChildItem.separator,
       ChildItem.menuItem "edit:find" "查找..."] }

/-- `menu.rs::create_view_menu`. -/
def create_view_menu : SubmenuM :=
  { id := "view", text := "视图",
    children :=
      [ChildItem.menuItem "view:edit-mode" "编辑模式",
       ChildItem.menuItem "view:preview-mode" "预览模式",
       ChildItem.menuItem "view:split-mode" "分屏模式",
       ChildItem.separator,
       ChildItem.menuItem "view:zoom-in" "放大",
       ChildItem.menuItem "view:zoom-out" "缩小",
       ChildItem.menuItem "view:reset-zoom" "重置缩放"] }

/-- `menu.rs::create_help_menu`; the About entry exists only off macOS. -/
def create_help_menu (macos : Bool) : SubmenuM :=
  { id := "help", text := "帮助",
    children :=
      (if macos then [] else [ChildItem.menuItem "help:about" "关于 Medit"]) ++
      [ChildItem.menuItem "help:docs" "文档",
       ChildItem.separator,
       ChildItem.menuItem "help:shortcuts" "快捷键参考"] }

/-- `menu.rs::create_app_menu`, the macOS-only application menu. -/
def create_app_menu : SubmenuM :=
  { id := "app", text := "Medit",
    children :=
      [ChildItem.menuItem "app:about" "关于 Medit",
       ChildItem.separator,
       ChildItem.menuItem "app:preferences" "偏好设置...",
       ChildItem.separator,
       ChildItem.predefined "hide",
       ChildItem.predefined "hide_others",
       ChildItem.predefined "show_all",
       ChildItem.separator,
       ChildItem.menuItem "app:quit" "退出 Medit"] }

/-- `menu.rs::create_menu`: the top-level menu tree, a list of submenus;
the app menu is prepended only on macOS. -/
def create_menu (macos : Bool) : List SubmenuM :=
  (if macos then [create_app_menu] else []) ++
    [create_file_menu macos, create_edit_menu, create_view_menu, create_help_menu macos]

/-- One iteration of the inner loop of `commands.rs::update_menu_labels`:
relabel an identified child whose identifier is a key of `labels`; skip
separators and predefined items (`_ => continue`). The `labels` hash map is
embedded as an association list queried by `List.lookup`. -/
def update_child (labels : List (String × String)) : ChildItem → ChildItem
  | ChildItem.menuItem id text =>
      match labels.lookup id with
      | some l => ChildItem.menuItem id l
      | none => ChildItem.menuItem id text
  | ChildItem.check id text =>
      match labels.lookup id with
      | some l => ChildItem.check id l
      | none => ChildItem.check id text
  | ChildItem.separator => ChildItem.separator
  | ChildItem.predefined tag => ChildItem.predefined tag

/-- One iteration of the outer loop of `update_menu_labels`: relabel the
submenu itself when its identifier is a key of `labels`, then walk its
children. -/
def update_submenu (labels : List (String × String)) (s : SubmenuM) : SubmenuM :=
  { id := s.id,
    text :=
      match labels.lookup s.id with
      | some l => l
      | none => s.text,
    children := s.children.map (update_child labels) }

/-- `commands.rs::update_menu_labels`, acting on the menu tree the setup
hook installed (the source's no-menu and `set_text` error paths cannot fire
on that tree). -/
def update_menu_labels (labels : List (String × String)) (m : List SubmenuM) : List SubmenuM :=
  m.map (update_submenu labels)

/-- The identifier/label pairs of the identified items of a child list. -/
def childEntries : List ChildItem → List (String × String)
  | [] => []
  | ChildItem.menuItem i t :: cs => (i, t) :: childEntries cs
  | ChildItem.check i t :: cs => (i, t) :: childEntries cs
  | ChildItem.separator :: cs => childEntries cs
  | ChildItem.predefined _ :: cs => childEntries cs

/-- All identifier/label pairs of a menu tree: each submenu's own pair
followed by those of its children. -/
def menuEntries : List SubmenuM → List (String × String)
  | [] => []
  | s :: rest => (s.id, s.text) :: (childEntries s.children ++ menuEntries rest)

/-- The labels carried, anywhere in the menu tree, by items with
identifier `id`. -/
def labelsAt (m : List SubmenuM) (id : String) : List String :=
  (menuEntries m).filterMap (fun p => if p.1 = id then some p.2 else none)

/-! ## Menu-event dispatch (`lib.rs`) -/

/-- The application state `handle_menu_event` consults: the names of the
existing webview windows (`app.get_webview_window`). -/
structure AppState where
  webviewWindows : List String
deriving DecidableEq

/-- One `window.emit(event, ())` call: the event name and the unit payload
the source passes. -/
structure EmitCall where
  event : String
  payload : Unit
deriving DecidableEq

/-- The fifteen identifiers of the dispatch table in
`lib.rs::handle_menu_event`. -/
def menuDispatchIds : List String :=
  ["file:new", "file:open", "file:save", "file:save-as", "file:exit",
   "edit:find",
   "view:edit-mode", "view:preview-mode", "view:split-mode",
   "view:zoom-in", "view:zoom-out", "view:reset-zoom",
   "help:about", "help:docs", "help:shortcuts"]

/-- `lib.rs::handle_menu_event`, returning the list of emit calls it
performs: nothing when no webview window named "main" exists, otherwise one
`menu:`-prefixed event per recognized identifier and nothing for the rest. -/
def handle_menu_event (app : AppState) (eventId : String) : List EmitCall :=
  if app.webviewWindows.contains "main" then
    match eventId with
    | "file:new" => [{ event := "menu:file:new", payload := () }]
    | "file:open" => [{ event := "menu:file:open", payload := () }]
    | "file:save" => [{ event := "menu:file:save", payload := () }]
    | "file:save-as" => [{ event := "menu:file:save-as", payload := () }]
    | "file:exit" => [{ event := "menu:file:exit", payload := () }]
    | "edit:find" => [{ event := "menu:edit:find", payload := () }]
    | "view:edit-mode" => [{ event := "menu:view:edit-mode", payload := () }]
    | "view:preview-mode" => [{ event := "menu:view:preview-mode", payload := () }]
    | "view:split-mode" => [{ event := "menu:view:split-mode", payload := () }]
    | "view:zoom-in" => [{ event := "menu:view:zoom-in", payload := () }]
    | "view:zoom-out" => [{ event := "menu:view:zoom-out", payload := () }]
    | "view:reset-zoom" => [{ event := "menu:view:reset-zoom", payload := () }]
    | "help:about" => [{ event := "menu:help:about", payload := () }]
    | "help:docs" => [{ event := "menu:help:docs", payload := () }]
    | "help:shortcuts" => [{ event := "menu:help:shortcuts", payload := () }]
    | _ => []
  else []

/-! ## Theorems -/

/-- C1: writing `content` to `path` with a successful result and then
reading `path` back yields a `FileResult` with `success = true` and
`content` equal to the written text (write/read round-trip). -/
theorem write_read_roundtrip (fs : FSState) (path content : String)
    (h : (write_file fs path content).1.success = true) :
    (read_file (write_file fs path content).2 path).1 =
      { success := true, content := some content, error := none } := by
  simp [write_file, writeOS, read_file, readToStringOS, List.lookup]

/-- Witness for C1 at a concrete state, path and content. -/
theorem write_read_roundtrip_witness :
    (read_file (write_file { files := [] } "a.md" "hello").2 "a.md").1 =
      { success := true, content := some "hello", error := none } :=
  write_read_roundtrip { files := [] } "a.md" "hello" (by decide)

/-- C3: reading a path that holds a file whose bytes are valid text yields
`success = true`, `content` equal to that text, `error = none` (and the
state is untouched). -/
theorem read_file_existing (fs : FSState) (path s : String)
    (h : fs.files.lookup path = some (FileData.text s)) :
    read_file fs path = ({ success := true, content := some s, error := none }, fs) := by
  simp [read_file, readToStringOS, h]

/-- Witness for C3 at a concrete one-file state. -/
theorem read_file_existing_witness :
    read_file { files := [("notes.md", FileData.text "# hi")] } "notes.md" =
      ({ success := true, content := some "# hi", error := none },
       { files := [("notes.md", FileData.text "# hi")] }) :=
  read_file_existing { files := [("notes.md", FileData.text "# hi")] } "notes.md" "# hi"
    (by decide)

/-- C4: reading a path that holds no file yields `success = false`,
`content = none` and a non-empty error string, returned inside the
`FileResult` record (the embedding's return type carries no fault channel,
matching the source's infallible command signature). -/
theorem read_file_missing (fs : FSState) (path : String)
    (h : fs.files.lookup path = none) :
    (read_file fs path).1.success = false ∧
    (read_file fs path).1.content = none ∧
    ∃ e, (read_file fs path).1.error = some e ∧ e ≠ "" := by
  refine ⟨?_, ?_, "No such file or directory (os error 2)", ?_, ?_⟩ <;>
    simp [read_file, readToStringOS, h]

/-- Witness for C4 at a concrete state lacking the path. -/
theorem read_file_missing_witness :
    ((read_file { files := [] } "missing.md").1.success = false ∧
     (read_file { files := [] } "missing.md").1.content = none ∧
     ∃ e, (read_file { files := [] } "missing.md").1.error = some e ∧ e ≠ "") :=
  read_file_missing { files := [] } "missing.md" (by decide)

/-- The `FileResult` record invariant: `content` populated only on success,
`error` populated only on failure, never both populated. -/
def fileResultInv (r : FileResult) : Prop :=
  (r.content.isSome = true → r.success = true) ∧
  (r.error.isSome = true → r.success = false) ∧
  ¬(r.content.isSome = true ∧ r.error.isSome = true)

/-- C5: every `FileResult` produced by `read_file` or `write_file`, on any
state and any input, satisfies the invariant; moreover `write_file` never
populates `content` (only a read can). -/
theorem fileResult_invariants (fs : FSState) (path content : String) :
    fileResultInv (read_file fs path).1 ∧
    fileResultInv (write_file fs path content).1 ∧
    (write_file fs path content).1.content = none := by
  unfold fileResultInv
  rcases hr : readToStringOS fs path with s | e <;>
    simp [read_file, write_file, writeOS, hr]

/-- C6: both dialog commands return a normal (non-error) result whose
`path` is exactly the user's selection and whose `canceled` flag holds iff
no path was selected; in particular cancellation gives
`{ path := none, canceled := true }`, never an error value. -/
theorem dialog_result_contract (choice default_name : Option String) :
    (∃ r, open_file_dialog choice = Except.ok r ∧ r.path = choice ∧
       (r.canceled = true ↔ r.path = none)) ∧
    (∃ r, save_file_dialog default_name choice = Except.ok r ∧ r.path = choice ∧
       (r.canceled = true ↔ r.path = none)) := by
  cases choice <;> simp [open_file_dialog, save_file_dialog]

/-- C8: `new_file` performs no file-system operation (the state comes back
unchanged) and returns `success = true`, whatever the prior state. -/
theorem new_file_pure (fs : FSState) :
    new_file fs = ({ success := true }, fs) := rfl

/-- C9: `exit_app` requests process termination with the success status 0
and its returned value is never an error. -/
theorem exit_app_contract :
    exit_app.1.code = 0 ∧ ∀ e : String, exit_app.2 ≠ Except.error e := by
  refine ⟨rfl, fun e h => ?_⟩
  simp [exit_app] at h

/-- C10: when no webview window named "main" exists, `handle_menu_event`
emits nothing and returns without error, whatever the identifier — even one
of the dispatch table. -/
theorem handle_menu_event_no_main_window (app : AppState) (eventId : String)
    (h : app.webviewWindows.contains "main" = false) :
    handle_menu_event app eventId = [] := by
  unfold handle_menu_event
  rw [h]
  simp

/-- Witness for C10 at a windowless state and a table identifier. -/
theorem handle_menu_event_no_main_window_witness :
    handle_menu_event { webviewWindows := [] } "file:new" = [] :=
  handle_menu_event_no_main_window { webviewWindows := [] } "file:new" (by decide)

/-- Counterexample to C2 as stated: "file:new" is in the dispatch table,
yet dispatching it in a state with no webview window named "main" emits no
event at all instead of exactly one event "menu:file:new". -/
theorem menu_dispatch_cex :
    "file:new" ∈ menuDispatchIds ∧
    handle_menu_event { webviewWindows := [] } "file:new" = [] ∧
    handle_menu_event { webviewWindows := [] } "file:new" ≠
      [{ event := "menu:file:new", payload := () }] := by
  refine ⟨by decide, rfl, by decide⟩

/-- C2 (amended): provided a webview window named "main" exists at dispatch
time, for each of the fifteen identifiers X of the dispatch table
`handle_menu_event` emits exactly one event named "menu:X" with the unit
payload, and for every identifier not in the table it emits no event and
returns without error. -/
theorem menu_dispatch (app : AppState) (eventId : String)
    (hw : app.webviewWindows.contains "main" = true) :
    (eventId ∈ menuDispatchIds →
       handle_menu_event app eventId = [{ event := "menu:" ++ eventId, payload := () }]) ∧
    (eventId ∉ menuDispatchIds → handle_menu_event app eventId = []) := by
  constructor
  · intro hmem
    unfold handle_menu_event
    rw [hw]
    simp only [if_true]
    fin_cases hmem <;> rfl
  · intro hmem
    unfold handle_menu_event
    rw [hw]
    simp only [if_true]
    split <;> first
      | rfl
      | exact absurd (by decide) hmem

/-- Witness for C2 (amended) with the "main" window present, at a table
identifier and at a non-table identifier. -/
theorem menu_dispatch_witness :
    handle_menu_event { webviewWindows := ["main"] } "view:zoom-in" =
      [{ event := "menu:" ++ "view:zoom-in", payload := () }] ∧
    handle_menu_event { webviewWindows := ["main"] } "bogus:id" = [] :=
  ⟨(menu_dispatch { webviewWindows := ["main"] } "view:zoom-in" (by decide)).1 (by decide),
   (menu_dispatch { webviewWindows := ["main"] } "bogus:id" (by decide)).2 (by decide)⟩

/-- Relabelling children leaves every identifier absent from `labels` with
its original labels. -/
theorem childEntries_update_frame (labels : List (String × String)) (id : String)
    (h : labels.lookup id = none) (cs : List ChildItem) :
    (childEntries (cs.map (update_child labels))).filterMap
        (fun p => if p.1 = id then some p.2 else none) =
      (childEntries cs).filterMap (fun p => if p.1 = id then some p.2 else none) := by
  induction cs with
  | nil => rfl
  | cons c cs ih =>
    cases c with
    | menuItem i t =>
      rcases hl : labels.lookup i with _ | l
      · simp only [List.map_cons, update_child, hl, childEntries, List.filterMap_cons, ih]
      · have hne : i ≠ id := by
          intro he
          rw [he, h] at hl
          cases hl
        simp only [List.map_cons, update_child, hl, childEntries, List.filterMap_cons,
          if_neg hne, ih]
    | check i t =>
      rcases hl : labels.lookup i with _ | l
      · simp only [List.map_cons, update_child, hl, childEntries, List.filterMap_cons, ih]
      · have hne : i ≠ id := by
          intro he
          rw [he, h] at hl
          cases hl
        simp only [List.map_cons, update_child, hl, childEntries, List.filterMap_cons,
          if_neg hne, ih]
    | separator =>
      simp only [List.map_cons, update_child, childEntries, ih]
    | predefined tag =>
      simp only [List.map_cons, update_child, childEntries, ih]

/-- Relabelling the whole tree leaves every identifier absent from `labels`
with its original labels. -/
theorem labelsAt_update_frame (labels : List (String × String)) (id : String)
    (h : labels.lookup id = none) (m : List SubmenuM) :
    labelsAt (update_menu_labels labels m) id = labelsAt m id := by
  induction m with
  | nil => rfl
  | cons s rest ih =>
    unfold labelsAt update_menu_labels at ih ⊢
    simp only [List.map_cons, menuEntries, update_submenu, List.filterMap_cons,
      List.filterMap_append]
    by_cases hs : s.id = id
    · rw [hs, h]
      rw [childEntries_update_frame labels id h s.children, ih]
    · simp only [if_neg hs]
      rw [childEntries_update_frame labels id h s.children, ih]

/-- C7: on either platform variant of the menu tree, applying
`update_menu_labels` with the single-entry mapping "file:open" to "Open…"
changes exactly that item's label (from "打开..." to "Open…", and it is the
only item with that identifier) and leaves every other item's label
unchanged; in general any identifier absent from the supplied mapping keeps
its labels throughout the tree. -/
theorem update_menu_labels_frame :
    (∀ macos : Bool,
       labelsAt (create_menu macos) "file:open" = ["打开..."] ∧
       labelsAt (update_menu_labels [("file:open", "Open…")] (create_menu macos))
           "file:open" = ["Open…"]) ∧
    (∀ (macos : Bool) (id : String), id ≠ "file:open" →
       labelsAt (update_menu_labels [("file:open", "Open…")] (create_menu macos)) id =
         labelsAt (create_menu macos) id) ∧
    (∀ (labels : List (String × String)) (m : List SubmenuM) (id : String),
       labels.lookup id = none →
       labelsAt (update_menu_labels labels m) id = labelsAt m id) := by
  refine ⟨fun macos => ?_, fun macos id hne => ?_, fun labels m id h => ?_⟩
  · cases macos <;> exact ⟨by decide, by decide⟩
  · refine labelsAt_update_frame _ _ ?_ _
    have hb : (id == "file:open") = false := beq_eq_false_iff_ne.mpr hne
    simp only [List.lookup, hb]
  · exact labelsAt_update_frame labels id h m

/-- Witness for C7: a label other than "file:open" survives the relabelling
on the non-macOS tree. -/
theorem update_menu_labels_frame_witness :
    labelsAt (update_menu_labels [("file:open", "Open…")] (create_menu false)) "help:docs" =
      labelsAt (create_menu false) "help:docs" :=
  update_menu_labels_frame.2.1 false "help:docs" (by decide)

end Medit
